import Mathlib

set_option autoImplicit false

namespace ConfigFile

/-!
Shallow embedding of the kitex-contrib/config-file repository:
the FileWatcher (filewatcher/filewatcher.go), the ConfigMonitor
(monitor/monitor.go), and the client-side retry / circuit-breaker
reconciliation callbacks (client/retry.go).  Go maps are modelled as
association lists whose operations mirror Go map semantics (assignment
overwrites, delete removes, lookup on an absent key yields none).
-/

/-- Raw file contents, opaque to the engine. -/
abbrev Bytes := List Nat

/-- A Go `map[string]V`, modelled as an association list. -/
abbrev GoMap (β : Type) := List (String × β)

/-- Go map read `m[k]`: the value stored under `k`, if present. -/
def lookupKey {β : Type} : GoMap β → String → Option β
  | [], _ => none
  | (k2, v) :: rest, k => if k2 = k then some v else lookupKey rest k

/-- Go `_, ok := m[k]` presence test. -/
def containsKey {β : Type} (m : GoMap β) (k : String) : Bool :=
  (lookupKey m k).isSome

/-- Go map assignment `m[k] = v`: overwrite if present, otherwise add. -/
def assignKey {β : Type} : GoMap β → String → β → GoMap β
  | [], k, v => [(k, v)]
  | (k2, v2) :: rest, k, v =>
      if k2 = k then (k2, v) :: rest else (k2, v2) :: assignKey rest k v

/-- Go `delete(m, k)`: remove the entry stored under `k`. -/
def eraseKey {β : Type} : GoMap β → String → GoMap β
  | [], _ => []
  | (k2, v2) :: rest, k =>
      if k2 = k then rest else (k2, v2) :: eraseKey rest k

/-! ## FileWatcher (filewatcher/filewatcher.go) -/

/-- A Go runtime fault: closing an already-closed channel is fatal. -/
inductive GoFault where
  | closeOfClosedChannel
  deriving DecidableEq, Repr

/-- Observable operations performed by a dispatch-path method: taking or
releasing the registry mutex `fw.mu`, copying the callback list, reading
the file, and invoking one registered callback. -/
inductive DispatchOp (β : Type) where
  | acquireLock
  | releaseLock
  | copyCallbacks
  | readFile
  | invoke (key : String) (callback : β)
  deriving DecidableEq, Repr

/-- State of a `fileWatcher`: the watched path, the keyed callback
registry `callbacks`, and whether the `done` channel has been closed. -/
structure FileWatcherState (β : Type) where
  filePath : String
  callbacks : GoMap β
  doneClosed : Bool
  deriving DecidableEq, Repr

/-- `fileWatcher.RegisterCallback`: under the lock, fail if the key is
already present, otherwise store the callback. -/
def FileWatcherState.RegisterCallback {β : Type} (fw : FileWatcherState β)
    (callback : β) (key : String) : Except String (FileWatcherState β) :=
  if containsKey fw.callbacks key then
    Except.error ("key " ++ key ++ "already exists")
  else
    Except.ok { fw with callbacks := assignKey fw.callbacks key callback }

/-- `fileWatcher.DeregisterCallback`: under the lock, warn and return if
the key is absent, otherwise delete it. -/
def FileWatcherState.DeregisterCallback {β : Type} (fw : FileWatcherState β)
    (key : String) : FileWatcherState β :=
  if containsKey fw.callbacks key then
    { fw with callbacks := eraseKey fw.callbacks key }
  else
    fw

/-- `fileWatcher.StopWatching` is `close(fw.done)`: closing the channel a
second time is a Go runtime fault. -/
def FileWatcherState.StopWatching {β : Type} (fw : FileWatcherState β) :
    Except GoFault (FileWatcherState β) :=
  if fw.doneClosed then
    Except.error GoFault.closeOfClosedChannel
  else
    Except.ok { fw with doneClosed := true }

/-- Calling `StopWatching` twice in a row on the same watcher. -/
def stopTwice {β : Type} (fw : FileWatcherState β) :
    Except GoFault (FileWatcherState β) :=
  match fw.StopWatching with
  | Except.error f => Except.error f
  | Except.ok fw2 => fw2.StopWatching

/-- `fileWatcher.CallOnceAll`: read the file (propagating a read error),
then range over the live `fw.callbacks` map invoking each callback with
the data.  The trace records every mutex, copy, read and invoke
operation the method body performs; the source body takes no lock and
copies nothing before invoking. -/
def FileWatcherState.CallOnceAll {β : Type} (fw : FileWatcherState β)
    (readResult : Option Bytes) : Except String (List (DispatchOp β)) :=
  match readResult with
  | none => Except.error "read file failed"
  | some _ =>
      Except.ok (DispatchOp.readFile ::
        fw.callbacks.map (fun e => DispatchOp.invoke e.1 e.2))

/-- `fileWatcher.RegisterCallback` with its operation trace: the source
body runs entirely between `fw.mu.Lock()` and the deferred
`fw.mu.Unlock()`. -/
def FileWatcherState.RegisterCallbackT {β : Type} (fw : FileWatcherState β)
    (callback : β) (key : String) :
    Except String (FileWatcherState β) × List (DispatchOp β) :=
  (fw.RegisterCallback callback key,
   [DispatchOp.acquireLock, DispatchOp.releaseLock])

/-! ## ConfigMonitor (monitor/monitor.go) -/

/-- State of a `ConfigMonitor`: whether a manager was set, the stored
config (`nil` modelled as `none`), the zero-argument callback registry,
and the monitor key. -/
structure ConfigMonitorState (γ cβ : Type) where
  managerSet : Bool
  config : Option γ
  callbacks : GoMap cβ
  key : String
  deriving DecidableEq, Repr

/-- `ConfigMonitor.RegisterCallback`: under the monitor lock, store the
callback with a plain map assignment (no presence check, no error
return). -/
def ConfigMonitorState.RegisterCallback {γ cβ : Type}
    (c : ConfigMonitorState γ cβ) (callback : cβ) (key : String) :
    ConfigMonitorState γ cβ :=
  { c with callbacks := assignKey c.callbacks key callback }

/-- `ConfigMonitor.DeregisterCallback`: under the monitor lock, warn and
return if the key is absent, otherwise delete it. -/
def ConfigMonitorState.DeregisterCallback {γ cβ : Type}
    (c : ConfigMonitorState γ cβ) (key : String) : ConfigMonitorState γ cβ :=
  if containsKey c.callbacks key then
    { c with callbacks := eraseKey c.callbacks key }
  else
    c

/-- `ConfigMonitor.parseHandler`: decode the bytes (return on failure),
then unconditionally assign `c.config = resp.GetConfig(c.key)`; if that
result is nil, warn and return, otherwise invoke every registered
callback.  Returns the new monitor state and the list of callback
entries invoked this cycle. -/
def ConfigMonitorState.parseHandler {γ cβ δ : Type}
    (decode : Bytes → Option δ) (getConfig : δ → String → Option γ)
    (c : ConfigMonitorState γ cβ) (data : Bytes) :
    ConfigMonitorState γ cβ × List (String × cβ) :=
  match decode data with
  | none => (c, [])
  | some doc =>
      let c2 : ConfigMonitorState γ cβ := { c with config := getConfig doc c.key }
      match c2.config with
      | none => (c2, [])
      | some _ => (c2, c2.callbacks)

/-- `ConfigMonitor.Start`: fail if no manager was set; read the file
(propagating a read error); run the parse handler once; then register
the parse handler (represented by the opaque `handler` value) in the
underlying FileWatcher under the monitor key. -/
def ConfigMonitorState.Start {β γ cβ δ : Type}
    (decode : Bytes → Option δ) (getConfig : δ → String → Option γ)
    (handler : β) (c : ConfigMonitorState γ cβ) (fw : FileWatcherState β)
    (readResult : Option Bytes) :
    Except String (ConfigMonitorState γ cβ × FileWatcherState β) :=
  if c.managerSet = false then
    Except.error "not set manager for config file"
  else
    match readResult with
    | none => Except.error "read config file failed"
    | some data =>
        let c2 := (ConfigMonitorState.parseHandler decode getConfig c data).1
        match fw.RegisterCallback handler c.key with
        | Except.error e => Except.error e
        | Except.ok fw2 => Except.ok (c2, fw2)

/-! ## utils.ThreadSafeSet (spec-modelled) and client reconciliation
(client/retry.go) -/

/-- Modelled from the spec: the repository's `utils.ThreadSafeSet` and
`utils.Set` live in the utils package, which is not among the provided
source files; only the call sites in client/retry.go are.  Per the spec,
a KeySet is a set of string keys supporting insert and an atomic
diff-and-replace.  The current set is modelled as a list of keys. -/
structure ThreadSafeSet where
  s : List String
  deriving DecidableEq, Repr

/-- Modelled from the spec: `DiffAndEmplace(newSet)` returns exactly the
keys present in the old set but absent from the new one, then makes the
new set the current one (one logically atomic step). -/
def ThreadSafeSet.DiffAndEmplace (ts : ThreadSafeSet) (other : List String) :
    List String × ThreadSafeSet :=
  (ts.s.filter (fun k => !other.contains k), { s := other })

/-- A per-method retry policy: in the Go source, `retry.Policy` carries
the pointer fields `BackupPolicy` and `FailurePolicy`; a nil pointer is
modelled as `none`. -/
structure RetryPolicy (π : Type) where
  BackupPolicy : Option π
  FailurePolicy : Option π
  deriving DecidableEq, Repr

/-- The retry `onChangeCallback` of `initRetryContainer`: if the Retry
section is nil, warn and return.  Otherwise range over the methods,
recording every method name in `set`; skip (with a warning) a method
whose policy has both `BackupPolicy` and `FailurePolicy` set, or both
absent; call `NotifyPolicyChange(method, policy)` for the rest.  Finally
delete every method returned by `ts.DiffAndEmplace(set)` from the retry
container.  Returns the notified entries, the deleted methods and the
new key-set state. -/
def retryOnChange {π : Type} (rcs : Option (GoMap (RetryPolicy π)))
    (ts : ThreadSafeSet) :
    List (String × RetryPolicy π) × List String × ThreadSafeSet :=
  match rcs with
  | none => ([], [], ts)
  | some entries =>
      let set : List String := entries.map Prod.fst
      let notified := entries.filter (fun e =>
        !(e.2.BackupPolicy.isSome && e.2.FailurePolicy.isSome) &&
        !(e.2.BackupPolicy.isNone && e.2.FailurePolicy.isNone))
      let dr := ts.DiffAndEmplace set
      (notified, dr.1, dr.2)

/-- `genServiceCBKey`: build `toService + "/" + method` (the Go source
does so through a `strings.Builder`). -/
def genServiceCBKey (toService method : String) : String :=
  toService ++ "/" ++ method

/-- The circuit-breaker `onChangeCallback` of `initCircuitBreaker`:
range over the methods of the Circuitbreaker section, recording every
method name in `set` and calling `UpdateServiceCBConfig` on the
composite key with the method's config; then for every method returned
by `lcb.DiffAndEmplace(set)` call `UpdateServiceCBConfig` on its
composite key with the default config.  Returns the sequence of
`UpdateServiceCBConfig` calls (key, config) and the new key-set
state. -/
def cbOnChange {κ : Type} (defaultCfg : κ) (toService : String)
    (configs : GoMap κ) (lcb : ThreadSafeSet) :
    List (String × κ) × ThreadSafeSet :=
  let set : List String := configs.map Prod.fst
  let updates := configs.map (fun e => (genServiceCBKey toService e.1, e.2))
  let dr := lcb.DiffAndEmplace set
  (updates ++ dr.1.map (fun m => (genServiceCBKey toService m, defaultCfg)), dr.2)

/-! ## Map registry lemmas -/

theorem lookupKey_assignKey_self {β : Type} (m : GoMap β) (k : String) (v : β) :
    lookupKey (assignKey m k v) k = some v := by
  induction m with
  | nil => simp [assignKey, lookupKey]
  | cons e rest ih =>
      obtain ⟨k2, v2⟩ := e
      by_cases h : k2 = k <;> simp [assignKey, lookupKey, h, ih]

theorem containsKey_assignKey_self {β : Type} (m : GoMap β) (k : String) (v : β) :
    containsKey (assignKey m k v) k = true := by
  simp [containsKey, lookupKey_assignKey_self]

theorem mem_assignKey_self {β : Type} (m : GoMap β) (k : String) (v : β) :
    (k, v) ∈ assignKey m k v := by
  induction m with
  | nil => simp [assignKey]
  | cons e rest ih =>
      obtain ⟨k2, v2⟩ := e
      by_cases h : k2 = k <;> simp [assignKey, h, ih]

theorem eraseKey_assignKey_of_not_contains {β : Type} (m : GoMap β) (k : String)
    (v : β) (h : containsKey m k = false) : eraseKey (assignKey m k v) k = m := by
  induction m with
  | nil => simp [assignKey, eraseKey]
  | cons e rest ih =>
      obtain ⟨k2, v2⟩ := e
      by_cases hk : k2 = k
      · subst hk
        simp [containsKey, lookupKey] at h
      · have h2 : containsKey rest k = false := by
          simpa [containsKey, lookupKey, hk] using h
        simp [assignKey, eraseKey, hk, ih h2]

theorem RegisterCallback_error_of_contains {β : Type} (fw : FileWatcherState β)
    (cb : β) (k : String) (h : containsKey fw.callbacks k = true) :
    fw.RegisterCallback cb k = Except.error ("key " ++ k ++ "already exists") := by
  simp [FileWatcherState.RegisterCallback, h]

theorem RegisterCallback_ok_elim {β : Type} {fw fw2 : FileWatcherState β}
    {cb : β} {k : String} (h : fw.RegisterCallback cb k = Except.ok fw2) :
    containsKey fw.callbacks k = false ∧
    fw2 = { fw with callbacks := assignKey fw.callbacks k cb } := by
  unfold FileWatcherState.RegisterCallback at h
  split at h
  · exact Except.noConfusion h
  · next hc =>
      refine ⟨by simpa using hc, ?_⟩
      injection h with h2
      exact h2.symm

/-! ## Claims -/

/-- C1: the claim states that when the decoded document has no
sub-config for the monitor key, the handler returns without invoking
callbacks and the stored config is left in place (not cleared to nil).
The source instead assigns the extraction result to the stored config
before the nil check (monitor.go line 121): here the monitor holds
`some 7` before the cycle, the bytes decode successfully to a document
without key "svcA", no callback is invoked, yet the stored config
afterwards is `none`, not `some 7`. -/
theorem c1_missing_key_clears_stored_config :
    (ConfigMonitorState.parseHandler
      (fun _ => some ([("svcB", 3)] : GoMap Nat))
      (fun d k => lookupKey d k)
      { managerSet := true, config := some 7, callbacks := [("cb", 0)], key := "svcA" }
      [1]).1.config = none
    ∧ (ConfigMonitorState.parseHandler
      (fun _ => some ([("svcB", 3)] : GoMap Nat))
      (fun d k => lookupKey d k)
      { managerSet := true, config := some 7, callbacks := [("cb", 0)], key := "svcA" }
      [1]).2 = [] := by
  exact ⟨rfl, rfl⟩

/-- C2 counterexample: on a concrete running watcher, the first
StopWatching succeeds but calling StopWatching twice ends in the Go
runtime fault of closing an already-closed channel — the second call is
not a harmless no-op. -/
theorem c2_double_stop_faults :
    FileWatcherState.StopWatching
      { filePath := "f", callbacks := ([] : GoMap Nat), doneClosed := false }
      = Except.ok { filePath := "f", callbacks := ([] : GoMap Nat), doneClosed := true }
    ∧ stopTwice { filePath := "f", callbacks := ([] : GoMap Nat), doneClosed := false }
      = Except.error GoFault.closeOfClosedChannel := by
  exact ⟨rfl, rfl⟩

/-- C2 (amended): for every running FileWatcher the first StopWatching
succeeds, and a second StopWatching closes the already-closed done
channel, a fatal Go runtime fault rather than a harmless no-op. -/
theorem c2_second_stop_is_fatal {β : Type} (fw : FileWatcherState β)
    (h : fw.doneClosed = false) :
    fw.StopWatching = Except.ok { fw with doneClosed := true }
    ∧ stopTwice fw = Except.error GoFault.closeOfClosedChannel := by
  constructor
  · simp [FileWatcherState.StopWatching, h]
  · simp [stopTwice, FileWatcherState.StopWatching, h]

/-- C2 witness: the amended theorem applied to a concrete watcher. -/
theorem c2_second_stop_is_fatal_witness :
    FileWatcherState.StopWatching
      { filePath := "g", callbacks := ([] : GoMap Nat), doneClosed := false }
      = Except.ok { filePath := "g", callbacks := ([] : GoMap Nat), doneClosed := true }
    ∧ stopTwice { filePath := "g", callbacks := ([] : GoMap Nat), doneClosed := false }
      = Except.error GoFault.closeOfClosedChannel :=
  c2_second_stop_is_fatal
    { filePath := "g", callbacks := ([] : GoMap Nat), doneClosed := false } rfl

/-- C3 counterexample: on the ConfigMonitor registry, a second
registration under the key "dup" does not fail and replaces the first
callback (0) with the second (1), and the second callback is the one
invoked on the next successful dispatch — the claim that both
registries reject duplicates and keep the first callback fails here. -/
theorem c3_monitor_registry_overwrites :
    ((({ managerSet := true, config := none, callbacks := [], key := "svcA" } :
        ConfigMonitorState Nat Nat).RegisterCallback 0 "dup").RegisterCallback
        1 "dup").callbacks = [("dup", 1)]
    ∧ (ConfigMonitorState.parseHandler
        (fun _ => some ([("svcA", 5)] : GoMap Nat))
        (fun d k => lookupKey d k)
        ((({ managerSet := true, config := none, callbacks := [], key := "svcA" } :
          ConfigMonitorState Nat Nat).RegisterCallback 0 "dup").RegisterCallback
          1 "dup")
        [1]).2 = [("dup", 1)] := by
  exact ⟨rfl, rfl⟩

/-- C3 (amended): the FileWatcher registry rejects a duplicate key with
an error, leaves the first callback installed, and the first callback is
the one invoked by a subsequent CallOnceAll; the ConfigMonitor registry
instead overwrites silently — a second registration under the same key
replaces the first and no error is reported. -/
theorem c3_registry_duplicate_key_behavior {β γ cβ : Type}
    (fw : FileWatcherState β) (cb1 cb2 : β) (key : String)
    (h : containsKey fw.callbacks key = false) :
    (∃ fw2, fw.RegisterCallback cb1 key = Except.ok fw2
      ∧ fw2.RegisterCallback cb2 key
          = Except.error ("key " ++ key ++ "already exists")
      ∧ lookupKey fw2.callbacks key = some cb1
      ∧ ∀ d ops, fw2.CallOnceAll (some d) = Except.ok ops →
          DispatchOp.invoke key cb1 ∈ ops)
    ∧ ∀ (c : ConfigMonitorState γ cβ) (d1 d2 : cβ),
        lookupKey ((c.RegisterCallback d1 key).RegisterCallback d2 key).callbacks
          key = some d2 := by
  constructor
  · refine ⟨{ fw with callbacks := assignKey fw.callbacks key cb1 }, ?_, ?_, ?_, ?_⟩
    · simp [FileWatcherState.RegisterCallback, h]
    · exact RegisterCallback_error_of_contains _ cb2 key
        (containsKey_assignKey_self fw.callbacks key cb1)
    · exact lookupKey_assignKey_self fw.callbacks key cb1
    · intro d ops hops
      simp only [FileWatcherState.CallOnceAll, Except.ok.injEq] at hops
      subst hops
      exact List.mem_cons_of_mem _
        (List.mem_map_of_mem _ (mem_assignKey_self fw.callbacks key cb1))
  · intro c d1 d2
    exact lookupKey_assignKey_self (assignKey c.callbacks key d1) key d2

/-- C3 witness: the amended theorem applied to a concrete empty
FileWatcher registry and callbacks 0 and 1 under the key "dup". -/
theorem c3_registry_duplicate_key_behavior_witness :
    (∃ fw2, FileWatcherState.RegisterCallback
        { filePath := "f", callbacks := ([] : GoMap Nat), doneClosed := false }
        0 "dup" = Except.ok fw2
      ∧ fw2.RegisterCallback 1 "dup"
          = Except.error ("key " ++ "dup" ++ "already exists")
      ∧ lookupKey fw2.callbacks "dup" = some 0
      ∧ ∀ d ops, fw2.CallOnceAll (some d) = Except.ok ops →
          DispatchOp.invoke "dup" 0 ∈ ops)
    ∧ ∀ (c : ConfigMonitorState Nat Nat) (d1 d2 : Nat),
        lookupKey ((c.RegisterCallback d1 "dup").RegisterCallback d2 "dup").callbacks
          "dup" = some d2 :=
  c3_registry_duplicate_key_behavior
    { filePath := "f", callbacks := ([] : GoMap Nat), doneClosed := false }
    0 1 "dup" rfl

/-- C4: DiffAndEmplace returns exactly the keys of the current set that
are absent from the new set and replaces the current set with the new
one; in particular, primed with keys A, B, C, diff-and-replace with
B, C, D returns exactly A and the current set becomes B, C, D. -/
theorem c4_diff_and_emplace_correct :
    (∀ (ts : ThreadSafeSet) (other : List String) (k : String),
        (k ∈ (ts.DiffAndEmplace other).1 ↔ k ∈ ts.s ∧ k ∉ other)
        ∧ (ts.DiffAndEmplace other).2.s = other)
    ∧ (ThreadSafeSet.mk ["A", "B", "C"]).DiffAndEmplace ["B", "C", "D"]
        = (["A"], ThreadSafeSet.mk ["B", "C", "D"]) := by
  constructor
  · intro ts other k
    constructor
    · simp [ThreadSafeSet.DiffAndEmplace, List.mem_filter]
    · rfl
  · decide

/-- C5: when decoding fails, the parse handler leaves the monitor state
untouched — Config() still returns the previous value V, not nil and
not a partial value — and invokes no registered callback that cycle. -/
theorem c5_stale_config_on_decode_failure {γ cβ δ : Type} {V : γ}
    (decode : Bytes → Option δ) (getConfig : δ → String → Option γ)
    (c : ConfigMonitorState γ cβ) (data : Bytes)
    (hd : decode data = none) (hV : c.config = some V) :
    (ConfigMonitorState.parseHandler decode getConfig c data).1.config = some V
    ∧ (ConfigMonitorState.parseHandler decode getConfig c data).2 = [] := by
  simp [ConfigMonitorState.parseHandler, hd, hV]

/-- C5 witness: the theorem applied to a monitor holding `some 7` and a
decoder that fails on the given bytes. -/
theorem c5_stale_config_on_decode_failure_witness :
    (ConfigMonitorState.parseHandler
      (fun _ => (none : Option (GoMap Nat)))
      (fun d k => lookupKey d k)
      { managerSet := true, config := some 7, callbacks := [("cb", 0)], key := "svcB" }
      [2]).1.config = some 7
    ∧ (ConfigMonitorState.parseHandler
      (fun _ => (none : Option (GoMap Nat)))
      (fun d k => lookupKey d k)
      { managerSet := true, config := some 7, callbacks := [("cb", 0)], key := "svcB" }
      [2]).2 = [] :=
  c5_stale_config_on_decode_failure _ _ _ _ rfl rfl

theorem deregister_noop_of_not_contains {β : Type} (fw : FileWatcherState β)
    (k : String) (h : containsKey fw.callbacks k = false) :
    fw.DeregisterCallback k = fw := by
  simp [FileWatcherState.DeregisterCallback, h]

theorem monitor_deregister_noop_of_not_contains {γ cβ : Type}
    (c : ConfigMonitorState γ cβ) (k : String)
    (h : containsKey c.callbacks k = false) : c.DeregisterCallback k = c := by
  simp [ConfigMonitorState.DeregisterCallback, h]

/-- C6: the retry reconciliation callback treats each method entry
independently: an entry of the new config is notified to the retry
container exactly when one of BackupPolicy and FailurePolicy is set —
both-set and both-absent entries are skipped without aborting the
batch — the deleted methods are exactly those of the previous
generation absent from the new config, and the key-set state becomes
the new config's method set. -/
theorem c6_retry_reconciliation {π : Type} (entries : GoMap (RetryPolicy π))
    (ts : ThreadSafeSet) :
    (∀ e, e ∈ entries →
        (e ∈ (retryOnChange (some entries) ts).1
          ↔ (e.2.BackupPolicy.isSome ^^ e.2.FailurePolicy.isSome) = true))
    ∧ (∀ m, m ∈ (retryOnChange (some entries) ts).2.1
        ↔ m ∈ ts.s ∧ m ∉ entries.map Prod.fst)
    ∧ (retryOnChange (some entries) ts).2.2.s = entries.map Prod.fst := by
  refine ⟨?_, ?_, rfl⟩
  · intro e he
    obtain ⟨method, b, f⟩ := e
    cases b <;> cases f <;>
      simp [retryOnChange, List.mem_filter, he]
  · intro m
    simp [retryOnChange, ThreadSafeSet.DiffAndEmplace, List.mem_filter]

/-- C6 witness: the theorem applied to a config where method X has both
policies set and method Y has only a failure policy, over a previous
generation holding M1: Y is notified, X is not, M1 is deleted, and the
key set becomes X, Y. -/
theorem c6_retry_reconciliation_witness :
    (("Y", ({ BackupPolicy := none, FailurePolicy := some 3 } : RetryPolicy Nat))
        ∈ (retryOnChange
            (some [("X", { BackupPolicy := some 1, FailurePolicy := some 2 }),
                   ("Y", { BackupPolicy := none, FailurePolicy := some 3 })])
            (ThreadSafeSet.mk ["M1"])).1
      ↔ (false ^^ true) = true)
    ∧ (("X", ({ BackupPolicy := some 1, FailurePolicy := some 2 } : RetryPolicy Nat))
        ∈ (retryOnChange
            (some [("X", { BackupPolicy := some 1, FailurePolicy := some 2 }),
                   ("Y", { BackupPolicy := none, FailurePolicy := some 3 })])
            (ThreadSafeSet.mk ["M1"])).1
      ↔ (true ^^ true) = true)
    ∧ ("M1" ∈ (retryOnChange
            (some [("X", ({ BackupPolicy := some 1, FailurePolicy := some 2 } : RetryPolicy Nat)),
                   ("Y", { BackupPolicy := none, FailurePolicy := some 3 })])
            (ThreadSafeSet.mk ["M1"])).2.1
      ↔ "M1" ∈ ["M1"] ∧ "M1" ∉ ["X", "Y"]) :=
  ⟨(c6_retry_reconciliation _ _).1 _ (by decide),
   (c6_retry_reconciliation _ _).1 _ (by decide),
   (c6_retry_reconciliation _ _).2.1 "M1"⟩

/-- C7: deregistering an absent key is a warning-only no-op on both the
FileWatcher and the ConfigMonitor registry, and registering then
deregistering then deregistering again never fails: the second
deregistration is again a no-op. -/
theorem c7_idempotent_deregistration {β γ cβ : Type} (fw : FileWatcherState β)
    (c : ConfigMonitorState γ cβ) (key : String) (cb : β) (dcb : cβ)
    (hfw : containsKey fw.callbacks key = false)
    (hc : containsKey c.callbacks key = false) :
    fw.DeregisterCallback key = fw
    ∧ c.DeregisterCallback key = c
    ∧ (∃ fw2, fw.RegisterCallback cb key = Except.ok fw2
        ∧ (fw2.DeregisterCallback key).DeregisterCallback key
            = fw2.DeregisterCallback key)
    ∧ ((c.RegisterCallback dcb key).DeregisterCallback key).DeregisterCallback key
        = (c.RegisterCallback dcb key).DeregisterCallback key := by
  refine ⟨deregister_noop_of_not_contains fw key hfw,
          monitor_deregister_noop_of_not_contains c key hc, ?_, ?_⟩
  · refine ⟨{ fw with callbacks := assignKey fw.callbacks key cb }, ?_, ?_⟩
    · simp [FileWatcherState.RegisterCallback, hfw]
    · have e1 : FileWatcherState.DeregisterCallback
          { fw with callbacks := assignKey fw.callbacks key cb } key = fw := by
        simp [FileWatcherState.DeregisterCallback, containsKey_assignKey_self,
              eraseKey_assignKey_of_not_contains fw.callbacks key cb hfw]
      rw [e1, deregister_noop_of_not_contains fw key hfw]
  · have e2 : (c.RegisterCallback dcb key).DeregisterCallback key = c := by
      simp [ConfigMonitorState.RegisterCallback,
            ConfigMonitorState.DeregisterCallback, containsKey_assignKey_self,
            eraseKey_assignKey_of_not_contains c.callbacks key dcb hc]
    rw [e2, monitor_deregister_noop_of_not_contains c key hc]

/-- C7 witness: the theorem applied to a concrete watcher and monitor
with empty registries and the key "k". -/
theorem c7_idempotent_deregistration_witness :
    FileWatcherState.DeregisterCallback
        { filePath := "f", callbacks := ([] : GoMap Nat), doneClosed := false } "k"
      = { filePath := "f", callbacks := ([] : GoMap Nat), doneClosed := false }
    ∧ ConfigMonitorState.DeregisterCallback
        ({ managerSet := true, config := none, callbacks := [], key := "svcA" } :
          ConfigMonitorState Nat Nat) "k"
      = { managerSet := true, config := none, callbacks := [], key := "svcA" }
    ∧ (∃ fw2, FileWatcherState.RegisterCallback
          { filePath := "f", callbacks := ([] : GoMap Nat), doneClosed := false }
          0 "k" = Except.ok fw2
        ∧ (fw2.DeregisterCallback "k").DeregisterCallback "k"
            = fw2.DeregisterCallback "k")
    ∧ (((({ managerSet := true, config := none, callbacks := [], key := "svcA" } :
          ConfigMonitorState Nat Nat).RegisterCallback 1 "k").DeregisterCallback
          "k").DeregisterCallback "k"
        = (({ managerSet := true, config := none, callbacks := [], key := "svcA" } :
          ConfigMonitorState Nat Nat).RegisterCallback 1 "k").DeregisterCallback "k") :=
  c7_idempotent_deregistration
    { filePath := "f", callbacks := ([] : GoMap Nat), doneClosed := false }
    { managerSet := true, config := none, callbacks := [], key := "svcA" }
    "k" 0 1 rfl rfl

/-- C8: the circuit-breaker reconciliation issues an
UpdateServiceCBConfig call for every method of the new config under the
composite key built from the destination service, a slash, and the
method name; every method of the previous generation absent from the
new config is reset by another UpdateServiceCBConfig call with the
default config (the call list contains nothing else, in particular no
delete); and the key-set state becomes the new config's method set. -/
theorem c8_circuit_breaker_reconciliation {κ : Type} (defaultCfg : κ)
    (svc : String) (configs : GoMap κ) (lcb : ThreadSafeSet) :
    (∀ e, e ∈ configs →
        (genServiceCBKey svc e.1, e.2) ∈ (cbOnChange defaultCfg svc configs lcb).1)
    ∧ (∀ m, m ∈ lcb.s → m ∉ configs.map Prod.fst →
        (genServiceCBKey svc m, defaultCfg) ∈ (cbOnChange defaultCfg svc configs lcb).1)
    ∧ (∀ p, p ∈ (cbOnChange defaultCfg svc configs lcb).1 →
        (∃ e, e ∈ configs ∧ p = (genServiceCBKey svc e.1, e.2))
        ∨ (∃ m, m ∈ lcb.s ∧ m ∉ configs.map Prod.fst
            ∧ p = (genServiceCBKey svc m, defaultCfg)))
    ∧ (cbOnChange defaultCfg svc configs lcb).2.s = configs.map Prod.fst
    ∧ ∀ s m, genServiceCBKey s m = s ++ "/" ++ m := by
  refine ⟨?_, ?_, ?_, rfl, fun s m => rfl⟩
  · intro e he
    show (genServiceCBKey svc e.1, e.2) ∈
      configs.map (fun e => (genServiceCBKey svc e.1, e.2))
        ++ ((lcb.DiffAndEmplace (configs.map Prod.fst)).1.map
              (fun m => (genServiceCBKey svc m, defaultCfg)))
    exact List.mem_append_left _ (List.mem_map_of_mem _ he)
  · intro m hm hnot
    show (genServiceCBKey svc m, defaultCfg) ∈
      configs.map (fun e => (genServiceCBKey svc e.1, e.2))
        ++ ((lcb.DiffAndEmplace (configs.map Prod.fst)).1.map
              (fun m => (genServiceCBKey svc m, defaultCfg)))
    refine List.mem_append_right _ (List.mem_map_of_mem _ ?_)
    simp [ThreadSafeSet.DiffAndEmplace, List.mem_filter, hm, hnot]
  · intro p hp
    have hp2 : p ∈ configs.map (fun e => (genServiceCBKey svc e.1, e.2))
        ++ ((lcb.DiffAndEmplace (configs.map Prod.fst)).1.map
              (fun m => (genServiceCBKey svc m, defaultCfg))) := hp
    rcases List.mem_append.mp hp2 with h1 | h2
    · obtain ⟨e, he, hpe⟩ := List.mem_map.mp h1
      exact Or.inl ⟨e, he, hpe.symm⟩
    · obtain ⟨m, hm, hpm⟩ := List.mem_map.mp h2
      have hm2 : m ∈ lcb.s ∧ m ∉ configs.map Prod.fst := by
        simpa [ThreadSafeSet.DiffAndEmplace, List.mem_filter] using hm
      exact Or.inr ⟨m, hm2.1, hm2.2, hpm.symm⟩

/-- C8 witness: the theorem applied to service "svc", a new config with
method M2, and a previous generation holding M1: M2 is installed under
"svc/M2", M1 is reset to the default under "svc/M1", and the key set
becomes M2. -/
theorem c8_circuit_breaker_reconciliation_witness :
    (("svc" ++ "/" ++ "M2", 9) ∈ (cbOnChange 0 "svc" [("M2", 9)] (ThreadSafeSet.mk ["M1"])).1)
    ∧ (("svc" ++ "/" ++ "M1", 0) ∈ (cbOnChange 0 "svc" [("M2", 9)] (ThreadSafeSet.mk ["M1"])).1)
    ∧ (cbOnChange 0 "svc" [("M2", 9)] (ThreadSafeSet.mk ["M1"])).2.s = ["M2"]
    ∧ genServiceCBKey "svc" "M1" = "svc" ++ "/" ++ "M1" :=
  ⟨(c8_circuit_breaker_reconciliation 0 "svc" [("M2", 9)] (ThreadSafeSet.mk ["M1"])).1
      ("M2", 9) (by decide),
   (c8_circuit_breaker_reconciliation 0 "svc" [("M2", 9)] (ThreadSafeSet.mk ["M1"])).2.1
      "M1" (by decide) (by decide),
   (c8_circuit_breaker_reconciliation 0 "svc" [("M2", 9)] (ThreadSafeSet.mk ["M1"])).2.2.2.1,
   (c8_circuit_breaker_reconciliation 0 "svc" [("M2", 9)] (ThreadSafeSet.mk ["M1"])).2.2.2.2
      "svc" "M1"⟩

/-- C9: the claim states that dispatch copies the callback list under
the registry lock before invoking any callback.  The source body of
CallOnceAll acquires no lock and copies nothing: a successful dispatch
trace contains no lock acquisition and no copy operation, while every
callback of the live registry is invoked from it directly. -/
theorem c9_dispatch_takes_no_lock_and_no_copy {β : Type}
    (fw : FileWatcherState β) (data : Bytes) (ops : List (DispatchOp β))
    (h : fw.CallOnceAll (some data) = Except.ok ops) :
    DispatchOp.acquireLock ∉ ops
    ∧ DispatchOp.copyCallbacks ∉ ops
    ∧ ∀ e, e ∈ fw.callbacks → DispatchOp.invoke e.1 e.2 ∈ ops := by
  simp only [FileWatcherState.CallOnceAll, Except.ok.injEq] at h
  subst h
  refine ⟨?_, ?_, ?_⟩
  · simp
  · simp
  · intro e he
    exact List.mem_cons_of_mem _ (List.mem_map_of_mem _ he)

/-- C9 witness: the theorem applied to a concrete watcher with one
registered callback. -/
theorem c9_dispatch_takes_no_lock_and_no_copy_witness :
    DispatchOp.acquireLock ∉
        [DispatchOp.readFile, DispatchOp.invoke "k" (0 : Nat)]
    ∧ DispatchOp.copyCallbacks ∉
        [DispatchOp.readFile, DispatchOp.invoke "k" (0 : Nat)]
    ∧ ∀ e, e ∈ ([("k", 0)] : GoMap Nat) → DispatchOp.invoke e.1 e.2 ∈
        [DispatchOp.readFile, DispatchOp.invoke "k" (0 : Nat)] :=
  c9_dispatch_takes_no_lock_and_no_copy
    { filePath := "f", callbacks := [("k", 0)], doneClosed := false }
    [1] [DispatchOp.readFile, DispatchOp.invoke "k" 0] rfl

/-- C10: Start registers the monitor's parse handler in the underlying
FileWatcher under the monitor's own key, so after a first monitor's
Start succeeds, a second monitor with the same key starting over the
resulting watcher state fails with the duplicate-key error. -/
theorem c10_second_start_fails_duplicate_key {β γ cβ δ : Type}
    (decode : Bytes → Option δ) (getConfig : δ → String → Option γ)
    (handler1 handler2 : β) (m1 m2 : ConfigMonitorState γ cβ)
    (fw fw2 : FileWatcherState β) (m1out : ConfigMonitorState γ cβ)
    (d1 d2 : Bytes)
    (h1 : ConfigMonitorState.Start decode getConfig handler1 m1 fw (some d1)
        = Except.ok (m1out, fw2))
    (hkey : m2.key = m1.key) (hmgr : m2.managerSet = true) :
    ConfigMonitorState.Start decode getConfig handler2 m2 fw2 (some d2)
      = Except.error ("key " ++ m2.key ++ "already exists") := by
  have hcont : containsKey fw2.callbacks m2.key = true := by
    unfold ConfigMonitorState.Start at h1
    by_cases hm : m1.managerSet = false
    · rw [if_pos hm] at h1
      exact Except.noConfusion h1
    · rw [if_neg hm] at h1
      cases hreg : fw.RegisterCallback handler1 m1.key with
      | error e =>
          rw [hreg] at h1
          exact Except.noConfusion h1
      | ok fw3 =>
          rw [hreg] at h1
          have h2 : fw3 = fw2 := congrArg Prod.snd (Except.ok.inj h1)
          obtain ⟨-, h3⟩ := RegisterCallback_ok_elim hreg
          rw [← h2, h3, hkey]
          exact containsKey_assignKey_self fw.callbacks m1.key handler1
  unfold ConfigMonitorState.Start
  rw [if_neg (by simp [hmgr]), RegisterCallback_error_of_contains fw2 handler2 m2.key hcont]

/-- C10 witness: two monitors keyed "k" over the same watcher; the
first Start succeeds and the second returns the duplicate-key error. -/
theorem c10_second_start_fails_duplicate_key_witness :
    ConfigMonitorState.Start (fun _ => some ([("k", 5)] : GoMap Nat))
      (fun d k => lookupKey d k) (102 : Nat)
      ({ managerSet := true, config := none, callbacks := [], key := "k" } :
        ConfigMonitorState Nat Nat)
      { filePath := "f", callbacks := [("k", 101)], doneClosed := false }
      (some [2])
      = Except.error ("key " ++ "k" ++ "already exists") :=
  c10_second_start_fails_duplicate_key
    (fun _ => some ([("k", 5)] : GoMap Nat)) (fun d k => lookupKey d k)
    101 102
    { managerSet := true, config := none, callbacks := [], key := "k" }
    ({ managerSet := true, config := none, callbacks := [], key := "k" } :
      ConfigMonitorState Nat Nat)
    { filePath := "f", callbacks := [], doneClosed := false }
    { filePath := "f", callbacks := [("k", 101)], doneClosed := false }
    { managerSet := true, config := some 5, callbacks := [], key := "k" }
    [1] [2] rfl rfl rfl

end ConfigFile
